import Mathlib

/-
Verification development for the DocDrift frontend orchestration layer
(src/app/app/page.tsx, src/components/conversations-sidebar.tsx,
src/lib/api-client.ts).

The page component's state (React useState hooks and useRef cells) is
embedded as the structure `AppState`; each event handler of the component
becomes a Lean function from `AppState` (plus the outcomes of its remote
calls, which are parameters, since the remote service is external) to
`AppState`.  Clock readings (`Date.now()` / `new Date()`) are threaded as
explicit `Nat` parameters; ISO-timestamp strings that are never compared
are kept as opaque `String`s.  The cooperative single-threaded JavaScript
scheduling model is reflected by treating every synchronous stretch of a
handler (up to its next `await`) as one atomic transition.
-/

/-! ## Data model (src/lib/api-client.ts) -/

structure Conversation where
  conversation_id : String
  title : String
  created_at : String
  updated_at : String
deriving DecidableEq, Repr

inductive Role where
  | user
  | assistant
deriving DecidableEq, Repr

structure Message where
  message_id : Option String
  conversation_id : String
  role : Role
  content : String
  timestamp : Option Nat
deriving DecidableEq, Repr

structure Document where
  document_id : String
  conversation_id : String
  filename : String
  file_size : Option Nat
  upload_date : String
  is_included : Bool
  storage_path : Option String
deriving DecidableEq, Repr

structure PreviewDoc where
  url : String
  title : String
deriving DecidableEq, Repr

/-- Result type of `ensureActiveConversation` (src/app/app/page.tsx lines 36-39). -/
structure EnsureConversationResult where
  conversationId : String
  created : Bool
deriving DecidableEq, Repr

/-! ## Component state (src/app/app/page.tsx lines 62-87)

All `useState` values and `useRef` cells of `AppPage` in one record.  The
in-flight creation promise held in `conversationCreationRef` is represented
by an abstract promise token (a `Nat` allocated from `nextPromiseToken`). -/

structure AppState where
  conversations : List Conversation
  selectedConversationId : Option String
  messages : List Message
  documents : List Document
  loading : Bool
  sendingMessage : Bool
  previewDoc : Option PreviewDoc
  previewingDocId : Option String
  isConversationsSidebarOpen : Bool
  isDocumentsPanelOpen : Bool
  isMobile : Bool
  backendReady : Bool
  backendChecking : Bool
  backendRetryCount : Nat
  backendLastError : Option String
  isMounted : Bool
  healthCheckInFlight : Bool
  conversationCreationRef : Option Nat
  nextPromiseToken : Nat
  hasLoadedConversations : Bool
deriving DecidableEq, Repr

/-- The initial state of the component: the `useState` initial values of
src/app/app/page.tsx lines 62-87 (`loading` starts `true`, both panels
open, nothing selected, no promise cached). -/
def initialAppState : AppState :=
  { conversations := []
    selectedConversationId := none
    messages := []
    documents := []
    loading := true
    sendingMessage := false
    previewDoc := none
    previewingDocId := none
    isConversationsSidebarOpen := true
    isDocumentsPanelOpen := true
    isMobile := false
    backendReady := false
    backendChecking := false
    backendRetryCount := 0
    backendLastError := none
    isMounted := true
    healthCheckInFlight := false
    conversationCreationRef := none
    nextPromiseToken := 0
    hasLoadedConversations := false }

/-! ## Title derivation (src/app/app/page.tsx lines 41-56)

Strings are handled as `List Char`.  `jsWhitespace` models the characters
matched by JavaScript `\s` / `trim()` in the ASCII range (tab, LF, VT, FF,
CR, space); the source never feeds non-ASCII whitespace to this helper. -/

def jsWhitespace (c : Char) : Bool :=
  c.toNat = 32 || (9 ≤ c.toNat && c.toNat ≤ 13)

/-- JavaScript `String.prototype.trim` on a character list. -/
def jsTrimList (l : List Char) : List Char :=
  ((l.dropWhile jsWhitespace).reverse.dropWhile jsWhitespace).reverse

/-- JavaScript `String.prototype.trimEnd` on a character list. -/
def jsTrimEndList (l : List Char) : List Char :=
  (l.reverse.dropWhile jsWhitespace).reverse

/-- Helper for `collapseWs`: the boolean records whether the previously
emitted character position was inside a whitespace run. -/
def collapseWsAux : Bool → List Char → List Char
  | _, [] => []
  | prevWs, c :: cs =>
    if jsWhitespace c then
      if prevWs then collapseWsAux true cs
      else ' ' :: collapseWsAux true cs
    else c :: collapseWsAux false cs

/-- JavaScript `s.replace(/\s+/g, " ")`: every maximal whitespace run
becomes a single space. -/
def collapseWs (l : List Char) : List Char :=
  collapseWsAux false l

def MAX_AUTO_TITLE_LENGTH : Nat := 60

/-- `deriveConversationTitle` (src/app/app/page.tsx lines 43-56).
`seed = none` models an `undefined` seed; a seed whose trim is empty takes
the same fallback branch (both are falsy in the source's `if`). -/
def deriveConversationTitle (seed : Option (List Char)) (fallbackIndex : Nat) : List Char :=
  let trimmedSeed := (seed.map jsTrimList).getD []
  if trimmedSeed ≠ [] then
    let normalized := collapseWs trimmedSeed
    if normalized.length ≤ MAX_AUTO_TITLE_LENGTH then normalized
    else jsTrimEndList (normalized.take (MAX_AUTO_TITLE_LENGTH - 3)) ++ "...".data
  else
    "New Conversation ".data ++ (toString fallbackIndex).data

/-! ## Single-flight conversation creation
(`ensureActiveConversation`, src/app/app/page.tsx lines 95-145)

An `async` JavaScript function runs synchronously up to its first `await`.
`ensureStart` is that synchronous prefix: it either returns the selected
conversation immediately, joins the promise already cached in
`conversationCreationRef`, or builds a new creation promise — whose body
issues the single remote create call before its own first `await` — and
caches it.  `settleCreation` is the `finally` clause executed when the
awaited promise settles (success or failure): it clears the cached token
if it is still the one this caller awaited. -/

inductive EnsureOutcome where
  | returned (conversationId : String)
  | started (token : Nat)
  | joined (token : Nat)
deriving DecidableEq, Repr

def ensureStart (st : AppState) : AppState × EnsureOutcome :=
  match st.selectedConversationId with
  | some cid => (st, .returned cid)
  | none =>
    match st.conversationCreationRef with
    | some t => (st, .joined t)
    | none =>
      let t := st.nextPromiseToken
      ({ st with conversationCreationRef := some t, nextPromiseToken := t + 1 },
        .started t)

/-- Run the synchronous prefixes of `n` concurrent `ensureActiveConversation`
callers, all invoked before the creation promise settles (so no resolution
step is interleaved). -/
def runEnsures (st : AppState) : Nat → AppState × List EnsureOutcome
  | 0 => (st, [])
  | Nat.succ n =>
    let p := ensureStart st
    let q := runEnsures p.1 n
    (q.1, p.2 :: q.2)

/-- The `finally` clause of `ensureActiveConversation` (lines 133-137):
clear `conversationCreationRef` only if it still holds the promise this
caller awaited. -/
def settleCreation (st : AppState) (t : Nat) : AppState :=
  if st.conversationCreationRef = some t then
    { st with conversationCreationRef := none }
  else st

/-- Number of remote `conversationsApi.create` calls issued by a list of
caller outcomes: exactly the callers that built the creation promise. -/
def createCallCount (outcomes : List EnsureOutcome) : Nat :=
  outcomes.countP fun o =>
    match o with
    | .started _ => true
    | _ => false

/-- The promise token a caller awaits, if any. -/
def awaitedToken : EnsureOutcome → Option Nat
  | .returned _ => none
  | .started t => some t
  | .joined t => some t

/-- The `EnsureConversationResult` a caller receives, given the settled
value `resolution t` of each promise token `t`. -/
def receivedResult (resolution : Nat → EnsureConversationResult) :
    EnsureOutcome → EnsureConversationResult
  | .returned cid => { conversationId := cid, created := false }
  | .started t => resolution t
  | .joined t => resolution t

/-- State effects of the creation promise body once the remote create call
has succeeded (src/app/app/page.tsx lines 110-124): prepend the new
conversation, select it, clear messages and documents, and collapse the
mobile conversation overlay. -/
def resolveCreation (st : AppState) (conv : Conversation) : AppState :=
  { st with
      conversations := conv :: st.conversations
      selectedConversationId := some conv.conversation_id
      messages := []
      documents := []
      isConversationsSidebarOpen :=
        if st.isMobile then false else st.isConversationsSidebarOpen }

/-- Outcome of the remote create call inside a solo (non-concurrent)
`ensureActiveConversation` run. -/
inductive EnsureEffect where
  | createdOk (conv : Conversation)
  | createFailed
deriving DecidableEq, Repr

/-- Net effect of one `ensureActiveConversation` call run to settlement
with no concurrent caller: if a conversation is selected, return it with
no state change and no remote call; otherwise the creation promise either
resolves (apply `resolveCreation`, return the new id) or rejects (no state
change, the error propagates — modelled by a `none` ensured id).  The
`finally` clears the token it set, so `conversationCreationRef` is
unchanged overall. -/
def applyEnsure (st : AppState) (eff : EnsureEffect) : AppState × Option String :=
  match st.selectedConversationId with
  | some cid => (st, some cid)
  | none =>
    match eff with
    | .createdOk conv => (resolveCreation st conv, some conv.conversation_id)
    | .createFailed => (st, none)

/-! ## Backend readiness (`runHealthCheck`, src/app/app/page.tsx lines 147-229)

A probe environment assigns each health path the behaviour of its `fetch`:
either an HTTP status or a thrown network error.  `runHealthCheck` models
one full run of the callback (entry guard, probe loop, state writes,
`finally`); the second component counts the network calls it issued.
`isMounted` is held constant across the modelled run, so the per-write
liveness checks of the source collapse. -/

inductive ProbeResult where
  | status (code : Nat)
  | netError (msg : String)
deriving DecidableEq, Repr

def healthPaths : List String := ["/health", "/"]

/-- The `for (const path of healthPaths)` loop (lines 166-183): returns
whether the backend was deemed reachable, the last error message, and the
number of fetches issued (the loop short-circuits on the first response
with status below 500). -/
def probeLoop : List (String × ProbeResult) → String → Bool × String × Nat
  | [], lastErr => (false, lastErr, 0)
  | (path, r) :: rest, lastErr =>
    match r with
    | .status code =>
      if code < 500 then (true, lastErr, 1)
      else
        let q := probeLoop rest
          ("Backend responded with status " ++ toString code ++ " at " ++ path)
        (q.1, q.2.1, q.2.2 + 1)
    | .netError msg =>
      let q := probeLoop rest msg
      (q.1, q.2.1, q.2.2 + 1)

/-- One run of `runHealthCheck` under probe environment `env` (one entry
per health path).  The transient `backendChecking` / `healthCheckInFlight`
flags are shown at their exit values (both are cleared by the `finally`). -/
def runHealthCheck (st : AppState) (env : List ProbeResult) : AppState × Nat :=
  if st.backendReady || st.healthCheckInFlight || !st.isMounted then (st, 0)
  else
    let r := probeLoop (healthPaths.zip env) "Unable to reach backend"
    if r.1 then
      ({ st with
          backendReady := true
          backendLastError := none
          backendRetryCount := 0
          backendChecking := false
          healthCheckInFlight := false }, r.2.2)
    else
      ({ st with
          backendLastError := some r.2.1
          backendRetryCount := st.backendRetryCount + 1
          backendChecking := false
          healthCheckInFlight := false }, r.2.2)

/-- The polling driver (the effect at src/app/app/page.tsx lines 216-229):
while not ready, `runHealthCheck` fires once per interval tick; the effect
returns early — clearing the interval — once `backendReady` holds. -/
def runPolling (st : AppState) : List (List ProbeResult) → AppState × Nat
  | [] => (st, 0)
  | env :: envs =>
    if st.backendReady then (st, 0)
    else
      let p := runHealthCheck st env
      let q := runPolling p.1 envs
      (q.1, p.2 + q.2)

/-! ## List loads (src/app/app/page.tsx lines 283-360) -/

/-- The mock conversation installed when the conversation-list load fails
(lines 302-309). -/
def mockConversation (now : String) : Conversation :=
  { conversation_id := "1", title := "Getting Started", created_at := now, updated_at := now }

/-- `loadConversations`, success branch (lines 283-294 and the `finally`). -/
def loadConversationsSuccess (st : AppState) (loaded : List Conversation) : AppState :=
  let shouldShowInitialSpinner := st.conversations.length = 0 && !st.hasLoadedConversations
  let st1 := { st with conversations := loaded }
  let st2 :=
    if 0 < loaded.length ∧ st.selectedConversationId = none then
      { st1 with selectedConversationId := loaded.head?.map Conversation.conversation_id }
    else st1
  { st2 with
      hasLoadedConversations := true
      loading := if shouldShowInitialSpinner then false else st2.loading }

/-- `loadConversations`, failure branch (lines 295-319 and the `finally`). -/
def loadConversationsFailure (st : AppState) (now : String) : AppState :=
  let shouldShowInitialSpinner := st.conversations.length = 0 && !st.hasLoadedConversations
  let mocks := [mockConversation now]
  let st1 := { st with conversations := mocks }
  let st2 :=
    if 0 < mocks.length ∧ st.selectedConversationId = none then
      { st1 with selectedConversationId := mocks.head?.map Conversation.conversation_id }
    else st1
  { st2 with
      hasLoadedConversations := true
      loading := if shouldShowInitialSpinner then false else st2.loading }

/-- The mock assistant greeting installed when the message-list load fails
(src/app/app/page.tsx lines 333-342). -/
def mockGreetingMessage (conversationId : String) (t : Nat) : Message :=
  { message_id := some "1"
    conversation_id := conversationId
    role := .assistant
    content := "Hello! I'm your AI assistant. Upload some documents and ask me questions about them."
    timestamp := some t }

def loadMessagesSuccess (st : AppState) (loaded : List Message) : AppState :=
  { st with messages := loaded }

def loadMessagesFailure (st : AppState) (conversationId : String) (t : Nat) : AppState :=
  { st with messages := [mockGreetingMessage conversationId t] }

def loadDocumentsSuccess (st : AppState) (loaded : List Document) : AppState :=
  { st with documents := loaded }

def loadDocumentsFailure (st : AppState) : AppState :=
  { st with documents := [] }

/-! ## Conversation handlers (src/app/app/page.tsx lines 400-466) -/

/-- `handleSelectConversation` (lines 400-405): set the selection and, on
mobile, close the conversations overlay.  Nothing else changes. -/
def handleSelectConversation (st : AppState) (conversationId : String) : AppState :=
  let st1 := { st with selectedConversationId := some conversationId }
  if st.isMobile then { st1 with isConversationsSidebarOpen := false } else st1

/-- `handleDeleteConversation` (lines 407-437).  `remoteOk` is the outcome
of the remote delete call; on failure only a toast is shown. -/
def handleDeleteConversation (st : AppState) (conversationId : String)
    (remoteOk : Bool) : AppState :=
  if remoteOk then
    let remaining := st.conversations.filter fun c => c.conversation_id ≠ conversationId
    if st.selectedConversationId = some conversationId then
      { st with
          conversations := remaining
          selectedConversationId := remaining.head?.map Conversation.conversation_id
          messages := []
          documents := []
          previewDoc := none
          previewingDocId := none }
    else
      { st with conversations := remaining }
  else st

/-- The per-conversation updater inside `handleRenameConversation`
(lines 446-452). -/
def renamePatch (conversationId title updatedAt : String) (c : Conversation) : Conversation :=
  if c.conversation_id = conversationId then
    { c with title := title, updated_at := updatedAt }
  else c

/-- `handleRenameConversation` (lines 439-466).  The boolean result is
`true` when the handler re-threw the remote error to its caller. -/
def handleRenameConversation (st : AppState) (conversationId title : String)
    (remoteOk : Bool) (updatedAt : String) : AppState × Bool :=
  if remoteOk then
    ({ st with
        conversations := st.conversations.map (renamePatch conversationId title updatedAt) },
      false)
  else (st, true)

/-- JavaScript `String.prototype.trim` on a `String`. -/
def jsTrim (s : String) : String :=
  String.mk (jsTrimList s.data)

/-- `handleConfirmRename` in the sidebar
(src/components/conversations-sidebar.tsx lines 84-95): returns the
`(id, trimmed title)` pair actually passed to `onRenameConversation`, or
`none` when the rename is rejected client-side (no target, or the trimmed
title is empty) and no remote call happens. -/
def handleConfirmRename (conversationToRename : Option String)
    (renameValue : String) : Option (String × String) :=
  match conversationToRename with
  | none => none
  | some conversationId =>
    if jsTrim renameValue = "" then none
    else some (conversationId, jsTrim renameValue)

/-! ## Message send (src/app/app/page.tsx lines 468-518) -/

/-- The optimistic user message (lines 479-485); `t` is the `Date.now()`
reading used both for the temporary id and the timestamp. -/
def optimisticUserMessage (conversationId content : String) (t : Nat) : Message :=
  { message_id := some ("temp-" ++ toString t)
    conversation_id := conversationId
    role := .user
    content := content
    timestamp := some t }

/-- The assistant message built by `messagesApi.send` from the backend's
`{answer}` (src/lib/api-client.ts lines 152-172); `assistId` models the
generated `assistant-...` id, `t` the response-time clock reading. -/
def apiAssistantMessage (conversationId answer assistId : String) (t : Nat) : Message :=
  { message_id := some assistId
    conversation_id := conversationId
    role := .assistant
    content := answer
    timestamp := some t }

/-- The offline assistant reply synthesized in the send failure path after
the 1s timeout (src/app/app/page.tsx lines 503-513); `t` is the clock
reading when the timeout fires. -/
def offlineAssistantMessage (conversationId : String) (t : Nat) : Message :=
  { message_id := some (toString (t + 1))
    conversation_id := conversationId
    role := .assistant
    content := "This is a mock response. Connect to your backend API to get real AI responses based on your documents."
    timestamp := some t }

inductive SendRemote where
  | ok (answer : String)
  | failed
deriving DecidableEq, Repr

/-- `handleSendMessage` (lines 468-518), run to completion (including the
failure path's delayed append).  `eff` is the outcome of the ensure step,
`remote` of the remote send; `tUser` and `tAssist` are the clock readings
when the user message and the assistant message are built. -/
def handleSendMessage (st : AppState) (content : String) (eff : EnsureEffect)
    (remote : SendRemote) (tUser tAssist : Nat) (assistId : String) : AppState :=
  if st.sendingMessage then st
  else
    let stBusy := { st with sendingMessage := true }
    match applyEnsure stBusy eff with
    | (st1, none) => { st1 with sendingMessage := false }
    | (st1, some cid) =>
      let stU := { st1 with
        messages := st1.messages ++ [optimisticUserMessage cid content tUser] }
      match remote with
      | .ok answer =>
        { stU with
            messages := stU.messages ++ [apiAssistantMessage cid answer assistId tAssist]
            sendingMessage := false }
      | .failed =>
        { stU with
            messages := stU.messages ++ [offlineAssistantMessage cid tAssist]
            sendingMessage := false }

/-! ## Document handlers (src/app/app/page.tsx lines 520-602) -/

/-- The Document built by `documentsApi.upload` from the backend response
(src/lib/api-client.ts lines 185-210): note `file_size` is not set. -/
def uploadedDocument (conversationId fileName docId path now : String) : Document :=
  { document_id := docId
    conversation_id := conversationId
    filename := fileName
    file_size := none
    upload_date := now
    is_included := true
    storage_path := some path }

/-- The locally synthesized Document of the upload failure path
(src/app/app/page.tsx lines 543-553): client-generated id, the file's own
name and byte size, included. -/
def offlineDocument (conversationId fileName : String) (fileSize : Nat)
    (localId now : String) : Document :=
  { document_id := localId
    conversation_id := conversationId
    filename := fileName
    file_size := some fileSize
    upload_date := now
    is_included := true
    storage_path := none }

inductive UploadRemote where
  | ok (docId path : String)
  | failed
deriving DecidableEq, Repr

/-- `handleUploadDocument` (lines 520-555).  `eff` is the ensure outcome;
`remote` the remote upload outcome; `localId` models `Date.now().toString()`. -/
def handleUploadDocument (st : AppState) (eff : EnsureEffect) (fileName : String)
    (fileSize : Nat) (remote : UploadRemote) (localId now : String) : AppState :=
  match applyEnsure st eff with
  | (st1, none) => st1
  | (st1, some cid) =>
    match remote with
    | .ok docId path =>
      { st1 with documents := st1.documents ++ [uploadedDocument cid fileName docId path now] }
    | .failed =>
      { st1 with documents := st1.documents ++ [offlineDocument cid fileName fileSize localId now] }

/-- The per-document updater inside `handleToggleDocumentInclude`
(lines 589-593). -/
def toggleIncludeUpdater (documentId : String) (isIncluded : Bool) (d : Document) : Document :=
  if d.document_id = documentId then { d with is_included := isIncluded } else d

/-- `handleToggleDocumentInclude` (lines 577-602): no-op without a
selection; on remote success map the updater over the collection; on
remote failure leave state untouched (toast only). -/
def handleToggleDocumentInclude (st : AppState) (documentId : String)
    (isIncluded : Bool) (remoteOk : Bool) : AppState :=
  match st.selectedConversationId with
  | none => st
  | some _ =>
    if remoteOk then
      { st with documents := st.documents.map (toggleIncludeUpdater documentId isIncluded) }
    else st

/-! ## Concrete sample data used by witnesses and counterexamples -/

def conversationA : Conversation :=
  { conversation_id := "A", title := "Alpha", created_at := "t0", updated_at := "t0" }

def conversationB : Conversation :=
  { conversation_id := "B", title := "Beta", created_at := "t0", updated_at := "t0" }

def messageOfA : Message :=
  { message_id := some "m1", conversation_id := "A", role := .user, content := "hi"
    timestamp := some 1 }

def documentOfA : Document :=
  { document_id := "d1", conversation_id := "A", filename := "a.pdf", file_size := some 10
    upload_date := "t0", is_included := true, storage_path := none }

def documentOfB : Document :=
  { document_id := "d2", conversation_id := "A", filename := "b.pdf", file_size := none
    upload_date := "t0", is_included := false, storage_path := some "p" }

/-- A state with conversation "A" selected and its data loaded. -/
def stateWithA : AppState :=
  { initialAppState with
      conversations := [conversationA, conversationB]
      selectedConversationId := some "A"
      messages := [messageOfA]
      documents := [documentOfA, documentOfB] }

/-- A state in which the backend has been observed ready. -/
def readyAppState : AppState :=
  { initialAppState with backendReady := true }

/-- A seed whose normalized form is 67 characters long with a space at
position 57 (`56 × 'a'`, one space, `10 × 'b'`). -/
def overlongSeed : List Char :=
  List.replicate 56 'a' ++ ' ' :: List.replicate 10 'b'

/-! ## Helper lemmas -/

theorem jsTrimEndList_length_le (l : List Char) : (jsTrimEndList l).length ≤ l.length := by
  unfold jsTrimEndList
  calc ((l.reverse.dropWhile jsWhitespace).reverse).length
      = (l.reverse.dropWhile jsWhitespace).length := List.length_reverse _
    _ ≤ l.reverse.length := (List.dropWhile_suffix _).length_le
    _ = l.length := List.length_reverse _

theorem runEnsures_pending (m : Nat) (st : AppState) (t : Nat)
    (hsel : st.selectedConversationId = none)
    (href : st.conversationCreationRef = some t) :
    runEnsures st m = (st, List.replicate m (EnsureOutcome.joined t)) := by
  induction m with
  | zero => simp [runEnsures]
  | succ n ih =>
    simp [runEnsures, ensureStart, hsel, href, ih, List.replicate_succ]

theorem createCallCount_replicate_joined (m t : Nat) :
    createCallCount (List.replicate m (EnsureOutcome.joined t)) = 0 := by
  induction m with
  | zero => simp [createCallCount]
  | succ n ih =>
    simp [createCallCount, List.replicate_succ]

/-! ## Claim C4 — title derivation -/

/-- Claim C4 fails as stated: the source applies `trimEnd()` to the 57
character prefix before appending the ellipsis
(src/app/app/page.tsx line 53), so a normalized seed whose 57th character
region ends in a space does not yield its first 57 characters followed by
"...".  At `overlongSeed` (normalized length 67) the code produces 56 'a'
characters followed by "..." (59 characters), not the claimed first 57
characters followed by "...". -/
theorem C4_counterexample :
    60 < (collapseWs (jsTrimList overlongSeed)).length ∧
    deriveConversationTitle (some overlongSeed) 1 ≠
      (collapseWs (jsTrimList overlongSeed)).take 57 ++ "...".data := by
  decide

/-- Claim C4 (amended): the derived title is the seed trimmed with internal
whitespace runs collapsed to single spaces; if that normalized form exceeds
60 characters it is truncated to its first 57 characters, trailing
whitespace of that prefix is removed, and an ellipsis is appended (so the
result has at most 60 characters); with no usable seed it is
"New Conversation {n}" with n one more than the conversation count.  The
claim's concrete examples all hold. -/
theorem C4_title_derivation (seed : List Char) (count : Nat) :
    (jsTrimList seed ≠ [] → (collapseWs (jsTrimList seed)).length ≤ 60 →
      deriveConversationTitle (some seed) (count + 1) = collapseWs (jsTrimList seed)) ∧
    (jsTrimList seed ≠ [] → 60 < (collapseWs (jsTrimList seed)).length →
      deriveConversationTitle (some seed) (count + 1) =
        jsTrimEndList ((collapseWs (jsTrimList seed)).take 57) ++ "...".data ∧
      (deriveConversationTitle (some seed) (count + 1)).length ≤ 60) ∧
    (jsTrimList seed = [] →
      deriveConversationTitle (some seed) (count + 1) =
        "New Conversation ".data ++ (toString (count + 1)).data) ∧
    (deriveConversationTitle none (count + 1) =
      "New Conversation ".data ++ (toString (count + 1)).data) ∧
    deriveConversationTitle (some "  hello   world  ".data) 3 = "hello world".data ∧
    deriveConversationTitle (some (List.replicate 80 'a')) 3 =
      List.replicate 57 'a' ++ "...".data ∧
    (deriveConversationTitle (some (List.replicate 80 'a')) 3).length = 60 ∧
    deriveConversationTitle none 3 = "New Conversation 3".data ∧
    deriveConversationTitle (some "".data) 3 = "New Conversation 3".data := by
  refine ⟨?_, ?_, ?_, ?_, by decide, by decide, by decide, by decide, by decide⟩
  · intro hne hlen
    simp [deriveConversationTitle, MAX_AUTO_TITLE_LENGTH, hne, hlen]
  · intro hne hlen
    have hbranch : deriveConversationTitle (some seed) (count + 1) =
        jsTrimEndList ((collapseWs (jsTrimList seed)).take 57) ++ "...".data := by
      simp [deriveConversationTitle, MAX_AUTO_TITLE_LENGTH, hne, Nat.not_le.mpr hlen]
    refine ⟨hbranch, ?_⟩
    rw [hbranch, List.length_append]
    have h1 : (jsTrimEndList ((collapseWs (jsTrimList seed)).take 57)).length ≤ 57 := by
      calc (jsTrimEndList ((collapseWs (jsTrimList seed)).take 57)).length
          ≤ ((collapseWs (jsTrimList seed)).take 57).length :=
            jsTrimEndList_length_le _
        _ ≤ 57 := by
            rw [List.length_take]
            exact Nat.min_le_left _ _
    have h2 : ("...".data).length = 3 := by decide
    omega
  · intro hempty
    simp [deriveConversationTitle, hempty]
  · simp [deriveConversationTitle]

/-! ## Claim C1 — single-flight conversation creation -/

/-- Claim C1: with no conversation selected and no creation in flight, N
concurrent callers of `ensureActiveConversation` issue exactly one remote
create call, all await the same promise token and hence receive the same
settled `{conversationId, created}` result; after the callers' `finally`
clauses run, the cached in-flight token is cleared, and a later call (if
still unselected, e.g. after a failure) starts a fresh creation. -/
theorem C1_single_flight (st : AppState) (n : Nat)
    (hsel : st.selectedConversationId = none)
    (href : st.conversationCreationRef = none)
    (hn : 1 ≤ n) :
    createCallCount (runEnsures st n).2 = 1 ∧
    (∀ o ∈ (runEnsures st n).2, awaitedToken o = some st.nextPromiseToken) ∧
    (∀ resolution : Nat → EnsureConversationResult,
      ∀ o ∈ (runEnsures st n).2,
        receivedResult resolution o = resolution st.nextPromiseToken) ∧
    (runEnsures st n).1.conversationCreationRef = some st.nextPromiseToken ∧
    (settleCreation (runEnsures st n).1 st.nextPromiseToken).conversationCreationRef = none ∧
    ((settleCreation (runEnsures st n).1 st.nextPromiseToken).selectedConversationId = none →
      ∃ t1, (ensureStart (settleCreation (runEnsures st n).1 st.nextPromiseToken)).2 =
        EnsureOutcome.started t1) := by
  obtain ⟨m, rfl⟩ : ∃ m, n = m + 1 := ⟨n - 1, (Nat.succ_pred_eq_of_pos hn).symm⟩
  have hstart : ensureStart st =
      ({ st with conversationCreationRef := some st.nextPromiseToken,
                 nextPromiseToken := st.nextPromiseToken + 1 },
        EnsureOutcome.started st.nextPromiseToken) := by
    simp [ensureStart, hsel, href]
  have hpend : runEnsures
      { st with conversationCreationRef := some st.nextPromiseToken,
                nextPromiseToken := st.nextPromiseToken + 1 } m =
      ({ st with conversationCreationRef := some st.nextPromiseToken,
                 nextPromiseToken := st.nextPromiseToken + 1 },
        List.replicate m (EnsureOutcome.joined st.nextPromiseToken)) :=
    runEnsures_pending m _ st.nextPromiseToken hsel rfl
  have hrun : runEnsures st (m + 1) =
      ({ st with conversationCreationRef := some st.nextPromiseToken,
                 nextPromiseToken := st.nextPromiseToken + 1 },
        EnsureOutcome.started st.nextPromiseToken ::
          List.replicate m (EnsureOutcome.joined st.nextPromiseToken)) := by
    dsimp only [runEnsures]
    rw [hstart]
    dsimp only
    rw [hpend]
  rw [hrun]
  refine ⟨?_, ?_, ?_, rfl, ?_, ?_⟩
  · have h0 := createCallCount_replicate_joined m st.nextPromiseToken
    simp only [createCallCount, List.countP_cons] at h0 ⊢
    simp [h0]
  · intro o ho
    rcases List.mem_cons.mp ho with h | h
    · subst h; rfl
    · rw [List.eq_of_mem_replicate h]; rfl
  · intro resolution o ho
    rcases List.mem_cons.mp ho with h | h
    · subst h; rfl
    · rw [List.eq_of_mem_replicate h]; rfl
  · simp [settleCreation]
  · intro hstill
    exact ⟨st.nextPromiseToken + 1, by simp [ensureStart, settleCreation, hsel]⟩

/-- Witness for C1 at the initial state with three concurrent callers. -/
theorem C1_single_flight_witness :
    createCallCount (runEnsures initialAppState 3).2 = 1 ∧
    (runEnsures initialAppState 3).1.conversationCreationRef = some 0 ∧
    (settleCreation (runEnsures initialAppState 3).1 0).conversationCreationRef = none := by
  have h := C1_single_flight initialAppState 3 rfl rfl (by decide)
  exact ⟨h.1, h.2.2.2.1, h.2.2.2.2.1⟩

/-! ## Claim C2 — selection change and the collections -/

/-- Claim C2 fails as stated: `handleSelectConversation`
(src/app/app/page.tsx lines 400-405) only sets the selection; neither it
nor the selection effect clears the message or document collections, so
between the selection change and the completion of the new conversation's
loads the collections still hold the previous conversation's data.  From a
state with conversation "A" selected and A's message and documents loaded,
selecting "B" leaves A's message and documents in memory. -/
theorem C2_counterexample :
    (handleSelectConversation stateWithA "B").selectedConversationId = some "B" ∧
    (handleSelectConversation stateWithA "B").messages = [messageOfA] ∧
    (handleSelectConversation stateWithA "B").documents = [documentOfA, documentOfB] ∧
    messageOfA.conversation_id = "A" ∧
    documentOfA.conversation_id = "A" := by
  decide

/-- Claim C2 (amended): changing the selected conversation id leaves the
message and document collections untouched until the corresponding loads
settle; each settled load then replaces (never merges) its collection with
data scoped to the newly selected conversation — the server rows on
success, a single mock greeting addressed to that conversation on message
failure, and the empty collection on document failure.  Collections are
cleared eagerly only by the creation path (`resolveCreation`) — and by
deletion of the selected conversation (claim C6). -/
theorem C2_selection_cascade (st : AppState) (cid : String) (loadedM : List Message)
    (loadedD : List Document) (t : Nat) (conv : Conversation) :
    (handleSelectConversation st cid).selectedConversationId = some cid ∧
    (handleSelectConversation st cid).messages = st.messages ∧
    (handleSelectConversation st cid).documents = st.documents ∧
    (loadMessagesSuccess (handleSelectConversation st cid) loadedM).messages = loadedM ∧
    (loadMessagesFailure (handleSelectConversation st cid) cid t).messages =
      [mockGreetingMessage cid t] ∧
    (mockGreetingMessage cid t).conversation_id = cid ∧
    (loadDocumentsSuccess (handleSelectConversation st cid) loadedD).documents = loadedD ∧
    (loadDocumentsFailure (handleSelectConversation st cid)).documents = [] ∧
    (resolveCreation st conv).messages = [] ∧
    (resolveCreation st conv).documents = [] := by
  refine ⟨?_, ?_, ?_, rfl, rfl, rfl, rfl, rfl, rfl, rfl⟩
  · unfold handleSelectConversation
    split <;> rfl
  · unfold handleSelectConversation
    split <;> rfl
  · unfold handleSelectConversation
    split <;> rfl

/-! ## Claim C3 — one-way readiness latch -/

theorem handleSelectConversation_backendReady (st : AppState) (cid : String) :
    (handleSelectConversation st cid).backendReady = st.backendReady := by
  unfold handleSelectConversation
  split <;> rfl

theorem handleDeleteConversation_backendReady (st : AppState) (cid : String) (ok : Bool) :
    (handleDeleteConversation st cid ok).backendReady = st.backendReady := by
  unfold handleDeleteConversation
  split
  · split <;> rfl
  · rfl

theorem handleRenameConversation_backendReady (st : AppState) (cid title : String)
    (ok : Bool) (updatedAt : String) :
    ((handleRenameConversation st cid title ok updatedAt).1).backendReady = st.backendReady := by
  unfold handleRenameConversation
  split <;> rfl

theorem handleToggleDocumentInclude_backendReady (st : AppState) (did : String)
    (inc ok : Bool) :
    (handleToggleDocumentInclude st did inc ok).backendReady = st.backendReady := by
  unfold handleToggleDocumentInclude
  obtain ⟨cs, sel, ms, ds, ld, sm, pv, pvid, cso, dpo, mob, rdy, chk, rc, lerr,
    mnt, hf, ref, tok, hl⟩ := st
  cases sel <;> [rfl; skip]
  dsimp only
  split <;> rfl

theorem handleSendMessage_backendReady (st : AppState) (content : String)
    (eff : EnsureEffect) (remote : SendRemote) (tUser tAssist : Nat) (assistId : String) :
    (handleSendMessage st content eff remote tUser tAssist assistId).backendReady =
      st.backendReady := by
  unfold handleSendMessage applyEnsure resolveCreation
  obtain ⟨cs, sel, ms, ds, ld, sm, pv, pvid, cso, dpo, mob, rdy, chk, rc, lerr,
    mnt, hf, ref, tok, hl⟩ := st
  cases sm <;> cases sel <;> cases eff <;> cases remote <;> rfl

theorem handleUploadDocument_backendReady (st : AppState) (eff : EnsureEffect)
    (fileName : String) (fileSize : Nat) (remote : UploadRemote) (localId now : String) :
    (handleUploadDocument st eff fileName fileSize remote localId now).backendReady =
      st.backendReady := by
  unfold handleUploadDocument applyEnsure resolveCreation
  obtain ⟨cs, sel, ms, ds, ld, sm, pv, pvid, cso, dpo, mob, rdy, chk, rc, lerr,
    mnt, hf, ref, tok, hl⟩ := st
  cases sel <;> cases eff <;> cases remote <;> rfl

theorem loadConversationsFailure_backendReady (st : AppState) (now : String) :
    (loadConversationsFailure st now).backendReady = st.backendReady := by
  unfold loadConversationsFailure
  dsimp only
  split <;> rfl

/-- Claim C3: once `backendReady` is `true` it stays `true` and no further
health-probe network call is issued: `runHealthCheck` returns immediately
with zero fetches, the polling driver stops without a call, and no other
modelled operation — including every failure path — writes `backendReady`. -/
theorem C3_readiness_latch (st : AppState) (env : List ProbeResult)
    (envs : List (List ProbeResult)) (h : st.backendReady = true) :
    runHealthCheck st env = (st, 0) ∧
    runPolling st envs = (st, 0) ∧
    (∀ s : AppState, ∀ e : List ProbeResult, s.backendReady = true →
      (runHealthCheck s e).1.backendReady = true ∧ (runHealthCheck s e).2 = 0) ∧
    (∀ cid ok, (handleDeleteConversation st cid ok).backendReady = true) ∧
    (∀ cid title ok ts, ((handleRenameConversation st cid title ok ts).1).backendReady = true) ∧
    (∀ did inc ok, (handleToggleDocumentInclude st did inc ok).backendReady = true) ∧
    (∀ content eff remote tU tA aid,
      (handleSendMessage st content eff remote tU tA aid).backendReady = true) ∧
    (∀ eff fn fs remote lid nw,
      (handleUploadDocument st eff fn fs remote lid nw).backendReady = true) ∧
    (∀ cid, (handleSelectConversation st cid).backendReady = true) ∧
    (∀ nw, (loadConversationsFailure st nw).backendReady = true) ∧
    (∀ cid t, (loadMessagesFailure st cid t).backendReady = true) ∧
    (loadDocumentsFailure st).backendReady = true := by
  refine ⟨by simp [runHealthCheck, h], ?_, ?_, ?_, ?_, ?_, ?_, ?_, ?_, ?_, ?_, h⟩
  · cases envs <;> simp [runPolling, h]
  · intro s e hs
    constructor
    · simp [runHealthCheck, hs]
    · simp [runHealthCheck, hs]
  · intro cid ok
    exact (handleDeleteConversation_backendReady st cid ok).trans h
  · intro cid title ok ts
    exact (handleRenameConversation_backendReady st cid title ok ts).trans h
  · intro did inc ok
    exact (handleToggleDocumentInclude_backendReady st did inc ok).trans h
  · intro content eff remote tU tA aid
    exact (handleSendMessage_backendReady st content eff remote tU tA aid).trans h
  · intro eff fn fs remote lid nw
    exact (handleUploadDocument_backendReady st eff fn fs remote lid nw).trans h
  · intro cid
    exact (handleSelectConversation_backendReady st cid).trans h
  · intro nw
    exact (loadConversationsFailure_backendReady st nw).trans h
  · intro cid t
    exact h

/-- Witness for C3 at a concrete ready state. -/
theorem C3_readiness_latch_witness :
    runHealthCheck readyAppState [ProbeResult.netError "boom"] = (readyAppState, 0) ∧
    runPolling readyAppState [[ProbeResult.netError "boom"]] = (readyAppState, 0) ∧
    (handleDeleteConversation readyAppState "A" false).backendReady = true ∧
    (handleSendMessage readyAppState "hi" EnsureEffect.createFailed SendRemote.failed
      0 0 "aid").backendReady = true := by
  have h := C3_readiness_latch readyAppState [ProbeResult.netError "boom"]
    [[ProbeResult.netError "boom"]] rfl
  exact ⟨h.1, h.2.1, h.2.2.2.1 "A" false,
    h.2.2.2.2.2.2.1 "hi" EnsureEffect.createFailed SendRemote.failed 0 0 "aid"⟩

/-! ## Claim C5 — send-message ordering -/

/-- Claim C5: for every send (success or failure), everything the send path
appends is of the form "optimistic user message, then at most one assistant
message", the appended assistant message (real or synthesized offline) has
a timestamp not earlier than the user message's, and when the ensure step
fails before the user message was appended, nothing is appended at all (in
particular no offline assistant reply). -/
theorem C5_send_ordering (st : AppState) (content : String) (eff : EnsureEffect)
    (remote : SendRemote) (tUser tAssist : Nat) (assistId : String)
    (hbusy : st.sendingMessage = false) (hclock : tUser ≤ tAssist) :
    ((applyEnsure { st with sendingMessage := true } eff).2 = none →
      (handleSendMessage st content eff remote tUser tAssist assistId).messages =
        st.messages) ∧
    (∀ cid, (applyEnsure { st with sendingMessage := true } eff).2 = some cid →
      ∃ tail,
        (handleSendMessage st content eff remote tUser tAssist assistId).messages =
          (applyEnsure { st with sendingMessage := true } eff).1.messages ++
            optimisticUserMessage cid content tUser :: tail ∧
        tail.length ≤ 1 ∧
        ∀ a ∈ tail, a.role = Role.assistant ∧
          ∃ ta, a.timestamp = some ta ∧ tUser ≤ ta) := by
  obtain ⟨cs, sel, ms, ds, ld, sm, pv, pvid, cso, dpo, mob, rdy, chk, rc, lerr,
    mnt, hf, ref, tok, hl⟩ := st
  cases sm with
  | true => simp at hbusy
  | false =>
    cases sel with
    | some cid0 =>
      constructor
      · intro hnone
        simp [applyEnsure] at hnone
      · intro cid hcid
        have hc : cid0 = cid := by simpa [applyEnsure] using hcid
        subst hc
        cases remote with
        | ok answer =>
          refine ⟨[apiAssistantMessage cid0 answer assistId tAssist], ?_, by simp, ?_⟩
          · simp [handleSendMessage, applyEnsure]
          · intro a ha
            simp only [List.mem_singleton] at ha
            subst ha
            exact ⟨rfl, tAssist, rfl, hclock⟩
        | failed =>
          refine ⟨[offlineAssistantMessage cid0 tAssist], ?_, by simp, ?_⟩
          · simp [handleSendMessage, applyEnsure]
          · intro a ha
            simp only [List.mem_singleton] at ha
            subst ha
            exact ⟨rfl, tAssist, rfl, hclock⟩
    | none =>
      cases eff with
      | createdOk conv =>
        constructor
        · intro hnone
          simp [applyEnsure] at hnone
        · intro cid hcid
          have hc : conv.conversation_id = cid := by simpa [applyEnsure] using hcid
          cases remote with
          | ok answer =>
            refine ⟨[apiAssistantMessage cid answer assistId tAssist], ?_, by simp, ?_⟩
            · simp [handleSendMessage, applyEnsure, resolveCreation, hc]
            · intro a ha
              simp only [List.mem_singleton] at ha
              subst ha
              exact ⟨rfl, tAssist, rfl, hclock⟩
          | failed =>
            refine ⟨[offlineAssistantMessage cid tAssist], ?_, by simp, ?_⟩
            · simp [handleSendMessage, applyEnsure, resolveCreation, hc]
            · intro a ha
              simp only [List.mem_singleton] at ha
              subst ha
              exact ⟨rfl, tAssist, rfl, hclock⟩
      | createFailed =>
        constructor
        · intro _
          rfl
        · intro cid hcid
          simp [applyEnsure] at hcid

/-- Witness for C5: an ensure failure appends nothing. -/
theorem C5_send_ordering_witness :
    (handleSendMessage initialAppState "hello" EnsureEffect.createFailed SendRemote.failed
      1 2 "aid").messages = initialAppState.messages :=
  (C5_send_ordering initialAppState "hello" EnsureEffect.createFailed SendRemote.failed
    1 2 "aid" rfl (by decide)).1 (by decide)

/-! ## Claim C6 — delete conversation -/

/-- Claim C6: a successful delete removes the conversation; if it was
selected, the selection moves to the list-order-first remaining
conversation (or null) and messages, documents and preview state are
cleared; if it was not selected, nothing else changes; a failed remote
delete leaves the state entirely unchanged. -/
theorem C6_delete_conversation (st : AppState) (conversationId : String) (remoteOk : Bool) :
    (remoteOk = false → handleDeleteConversation st conversationId remoteOk = st) ∧
    (remoteOk = true →
      (handleDeleteConversation st conversationId remoteOk).conversations =
        st.conversations.filter (fun c => c.conversation_id ≠ conversationId) ∧
      (st.selectedConversationId = some conversationId →
        (handleDeleteConversation st conversationId remoteOk).selectedConversationId =
          (st.conversations.filter
            (fun c => c.conversation_id ≠ conversationId)).head?.map
              Conversation.conversation_id ∧
        (handleDeleteConversation st conversationId remoteOk).messages = [] ∧
        (handleDeleteConversation st conversationId remoteOk).documents = [] ∧
        (handleDeleteConversation st conversationId remoteOk).previewDoc = none ∧
        (handleDeleteConversation st conversationId remoteOk).previewingDocId = none) ∧
      (st.selectedConversationId ≠ some conversationId →
        (handleDeleteConversation st conversationId remoteOk).selectedConversationId =
          st.selectedConversationId ∧
        (handleDeleteConversation st conversationId remoteOk).messages = st.messages ∧
        (handleDeleteConversation st conversationId remoteOk).documents = st.documents ∧
        (handleDeleteConversation st conversationId remoteOk).previewDoc = st.previewDoc ∧
        (handleDeleteConversation st conversationId remoteOk).previewingDocId =
          st.previewingDocId)) := by
  constructor
  · intro h
    subst h
    rfl
  · intro h
    subst h
    by_cases hs : st.selectedConversationId = some conversationId
    · refine ⟨?_, fun _ => ⟨?_, ?_, ?_, ?_, ?_⟩, fun hns => absurd hs hns⟩ <;>
        simp [handleDeleteConversation, hs]
    · refine ⟨?_, fun hsel => absurd hsel hs, fun _ => ⟨?_, ?_, ?_, ?_, ?_⟩⟩ <;>
        simp [handleDeleteConversation, hs]

/-- Witness for C6: deleting selected "A" clears data and selects "B";
deleting with a failed remote call changes nothing. -/
theorem C6_delete_conversation_witness :
    (handleDeleteConversation stateWithA "A" true).messages = [] ∧
    (handleDeleteConversation stateWithA "A" true).selectedConversationId = some "B" ∧
    handleDeleteConversation stateWithA "A" false = stateWithA := by
  have h := C6_delete_conversation stateWithA "A" true
  have hf := C6_delete_conversation stateWithA "A" false
  refine ⟨((h.2 rfl).2.1 rfl).2.1, ?_, hf.1 rfl⟩
  exact (((h.2 rfl).2.1 rfl).1).trans (by decide)

/-! ## Claim C7 — upload fallback document -/

/-- Claim C7: when the ensure step succeeds with conversation `cid` but the
remote upload fails, exactly one locally synthesized Document is appended —
client-generated id, the file's name, `is_included = true` and `file_size`
equal to the source file's byte size; when the ensure step itself fails,
the state (and so the document collection) is unchanged. -/
theorem C7_upload_fallback (st : AppState) (eff : EnsureEffect) (fileName : String)
    (fileSize : Nat) (localId now : String) :
    ((applyEnsure st eff).2 = none →
      handleUploadDocument st eff fileName fileSize UploadRemote.failed localId now = st) ∧
    (∀ cid, (applyEnsure st eff).2 = some cid →
      (handleUploadDocument st eff fileName fileSize UploadRemote.failed localId now).documents =
        (applyEnsure st eff).1.documents ++ [offlineDocument cid fileName fileSize localId now] ∧
      (offlineDocument cid fileName fileSize localId now).is_included = true ∧
      (offlineDocument cid fileName fileSize localId now).file_size = some fileSize ∧
      (offlineDocument cid fileName fileSize localId now).filename = fileName ∧
      (offlineDocument cid fileName fileSize localId now).document_id = localId) := by
  constructor
  · intro h
    cases hsel : st.selectedConversationId with
    | some c => simp [applyEnsure, hsel] at h
    | none =>
      cases eff with
      | createdOk conv => simp [applyEnsure, hsel] at h
      | createFailed => simp [handleUploadDocument, applyEnsure, hsel]
  · intro cid hcid
    cases hsel : st.selectedConversationId with
    | some c =>
      have hc : c = cid := by simpa [applyEnsure, hsel] using hcid
      subst hc
      refine ⟨?_, rfl, rfl, rfl, rfl⟩
      simp [handleUploadDocument, applyEnsure, hsel]
    | none =>
      cases eff with
      | createdOk conv =>
        have hc : conv.conversation_id = cid := by simpa [applyEnsure, hsel] using hcid
        subst hc
        refine ⟨?_, rfl, rfl, rfl, rfl⟩
        simp [handleUploadDocument, applyEnsure, resolveCreation, hsel]
      | createFailed => simp [applyEnsure, hsel] at hcid

/-- Witness for C7: in a state with "A" selected, a failed upload appends
exactly the synthesized document with the file's size, included. -/
theorem C7_upload_fallback_witness :
    (handleUploadDocument stateWithA EnsureEffect.createFailed "f.pdf" 42
      UploadRemote.failed "99" "t1").documents =
      [documentOfA, documentOfB, offlineDocument "A" "f.pdf" 42 "99" "t1"] ∧
    (offlineDocument "A" "f.pdf" 42 "99" "t1").is_included = true := by
  have h := (C7_upload_fallback stateWithA EnsureEffect.createFailed "f.pdf" 42
    "99" "t1").2 "A" (by decide)
  exact ⟨h.1.trans (by decide), h.2.1⟩

/-! ## Claim C8 — toggle-inclusion frame -/

/-- Claim C8: a successful toggle maps `toggleIncludeUpdater` over the
collection — documents with a different id are untouched and the matching
document changes only its inclusion flag — while a failed toggle (and a
toggle with no selection, which issues no remote call) leaves the whole
state unchanged. -/
theorem C8_toggle_frame (st : AppState) (documentId : String) (isIncluded remoteOk : Bool) :
    (remoteOk = false → handleToggleDocumentInclude st documentId isIncluded remoteOk = st) ∧
    (st.selectedConversationId = none →
      handleToggleDocumentInclude st documentId isIncluded remoteOk = st) ∧
    (remoteOk = true → st.selectedConversationId ≠ none →
      (handleToggleDocumentInclude st documentId isIncluded remoteOk).documents =
        st.documents.map (toggleIncludeUpdater documentId isIncluded) ∧
      (handleToggleDocumentInclude st documentId isIncluded remoteOk).conversations =
        st.conversations ∧
      (handleToggleDocumentInclude st documentId isIncluded remoteOk).messages =
        st.messages ∧
      (handleToggleDocumentInclude st documentId isIncluded remoteOk).selectedConversationId =
        st.selectedConversationId) ∧
    (∀ d : Document, d.document_id ≠ documentId →
      toggleIncludeUpdater documentId isIncluded d = d) ∧
    (∀ d : Document, d.document_id = documentId →
      toggleIncludeUpdater documentId isIncluded d = { d with is_included := isIncluded }) := by
  refine ⟨?_, ?_, ?_, ?_, ?_⟩
  · intro h
    subst h
    cases hsel : st.selectedConversationId <;> simp [handleToggleDocumentInclude, hsel]
  · intro h
    simp [handleToggleDocumentInclude, h]
  · intro h hne
    subst h
    cases hsel : st.selectedConversationId with
    | none => exact absurd hsel hne
    | some c => exact ⟨by simp [handleToggleDocumentInclude, hsel], by
        simp [handleToggleDocumentInclude, hsel], by
        simp [handleToggleDocumentInclude, hsel], by
        simp [handleToggleDocumentInclude, hsel]⟩
  · intro d hd
    simp [toggleIncludeUpdater, hd]
  · intro d hd
    simp [toggleIncludeUpdater, hd]

/-- Witness for C8: a failed toggle changes nothing; a successful toggle of
"d1" flips only that document's flag. -/
theorem C8_toggle_frame_witness :
    handleToggleDocumentInclude stateWithA "d1" false false = stateWithA ∧
    (handleToggleDocumentInclude stateWithA "d1" false true).documents =
      [{ documentOfA with is_included := false }, documentOfB] := by
  have h := C8_toggle_frame stateWithA "d1" false false
  have h2 := C8_toggle_frame stateWithA "d1" false true
  refine ⟨h.1 rfl, ?_⟩
  exact ((h2.2.2.1 rfl (by decide)).1).trans (by decide)

/-! ## Claim C9 — rename is fail-closed and re-throws -/

/-- Claim C9: a successful rename patches only the matching conversation's
title and updated-at; a failed rename leaves the store unchanged and
re-throws (the `true` flag), unlike toggle and delete whose handlers
return plain states (claims C8 and C6) after notifying; and
`handleConfirmRename` rejects an empty or whitespace-only title (or a
missing target) client-side, returning `none` so no remote call is made. -/
theorem C9_rename_fail_closed (st : AppState) (conversationId title updatedAt v : String) :
    handleRenameConversation st conversationId title true updatedAt =
      ({ st with conversations :=
          st.conversations.map (renamePatch conversationId title updatedAt) }, false) ∧
    (∀ c : Conversation, c.conversation_id ≠ conversationId →
      renamePatch conversationId title updatedAt c = c) ∧
    (∀ c : Conversation, c.conversation_id = conversationId →
      renamePatch conversationId title updatedAt c =
        { c with title := title, updated_at := updatedAt }) ∧
    handleRenameConversation st conversationId title false updatedAt = (st, true) ∧
    (jsTrim v = "" → handleConfirmRename (some conversationId) v = none) ∧
    handleConfirmRename none v = none ∧
    (jsTrim v ≠ "" →
      handleConfirmRename (some conversationId) v = some (conversationId, jsTrim v)) := by
  refine ⟨?_, ?_, ?_, ?_, ?_, rfl, ?_⟩
  · simp [handleRenameConversation]
  · intro c hc
    simp [renamePatch, hc]
  · intro c hc
    simp [renamePatch, hc]
  · simp [handleRenameConversation]
  · intro h
    simp [handleConfirmRename, h]
  · intro h
    simp [handleConfirmRename, h]

/-- Witness for C9: failed rename re-throws with the state unchanged; a
whitespace-only title is rejected before any call; a padded title is
trimmed and passed through. -/
theorem C9_rename_fail_closed_witness :
    handleRenameConversation stateWithA "A" "New title" false "t1" = (stateWithA, true) ∧
    handleConfirmRename (some "A") "   " = none ∧
    handleConfirmRename (some "A") "  ok  " = some ("A", "ok") := by
  have h := C9_rename_fail_closed stateWithA "A" "New title" "t1" "   "
  have h2 := C9_rename_fail_closed stateWithA "A" "New title" "t1" "  ok  "
  refine ⟨h.2.2.2.1, h.2.2.2.2.1 (by decide), ?_⟩
  exact (h2.2.2.2.2.2.2 (by decide)).trans (by decide)

/-! ## Claim C10 — offline fallbacks for the list loads -/

/-- Claim C10: a failed conversation-list load installs exactly the one
mock conversation (id "1", title "Getting Started") and selects it only if
nothing was selected; a failed message-list load installs exactly one mock
assistant greeting (an assistant message with no preceding user message);
a failed document-list load empties the document collection. -/
theorem C10_offline_fallback (st : AppState) (now cid : String) (t : Nat) :
    (loadConversationsFailure st now).conversations = [mockConversation now] ∧
    (mockConversation now).conversation_id = "1" ∧
    (mockConversation now).title = "Getting Started" ∧
    (st.selectedConversationId = none →
      (loadConversationsFailure st now).selectedConversationId = some "1") ∧
    (∀ sel, st.selectedConversationId = some sel →
      (loadConversationsFailure st now).selectedConversationId = some sel) ∧
    (loadMessagesFailure st cid t).messages = [mockGreetingMessage cid t] ∧
    (loadMessagesFailure st cid t).messages.length = 1 ∧
    (mockGreetingMessage cid t).role = Role.assistant ∧
    (loadDocumentsFailure st).documents = [] := by
  refine ⟨?_, rfl, rfl, ?_, ?_, rfl, rfl, rfl, rfl⟩
  · unfold loadConversationsFailure
    dsimp only
    split <;> rfl
  · intro h
    simp [loadConversationsFailure, mockConversation, h]
  · intro sel h
    simp [loadConversationsFailure, h]

/-- Witness for C10 at concrete states with and without a selection. -/
theorem C10_offline_fallback_witness :
    (loadConversationsFailure initialAppState "t0").selectedConversationId = some "1" ∧
    (loadConversationsFailure stateWithA "t0").selectedConversationId = some "A" ∧
    (loadDocumentsFailure stateWithA).documents = [] := by
  have h1 := C10_offline_fallback initialAppState "t0" "A" 0
  have h2 := C10_offline_fallback stateWithA "t0" "A" 0
  exact ⟨h1.2.2.2.1 rfl, h2.2.2.2.2.1 "A" rfl, h2.2.2.2.2.2.2.2.2⟩
